import Mathlib

/-!
Shallow embedding of `sqlmesh/utils/errors.py`: the error taxonomy (a class
hierarchy rooted at `SQLMeshError`), the `AuditError` payload with its message
and SQL-rendering logic, and the two classifier functions `raise_config_error`
and `raise_for_status`.  Python machine behaviour that matters here is made
explicit: truthiness of optional strings (`None` and `""` are falsy), the
short-circuiting `or`, and f-string concatenation.
-/

/-- The Python classes declared in `errors.py`, plus the builtin `Exception`
they ultimately derive from. -/
inductive PyClass
  | Exception
  | SQLMeshError
  | ConfigError
  | MissingDependencyError
  | MacroEvalError
  | PlanError
  | NoChangesPlanError
  | UncategorizedPlanError
  | ConflictingPlanError
  | MissingContextException
  | SnapshotVersionError
  | MagicError
  | AuditConfigError
  | AuditError
  | TestError
  | NotificationTargetError
  | ApiError
  | ApiClientError
  | ApiServerError
  | NotFoundError
  | CICDBotError
  | ParsetimeAdapterCallError
  | EngineAdapterError
  | UnsupportedCatalogOperationError
  | CircuitBreakerError
  | PythonModelEvalError
  deriving DecidableEq, Repr

/-- The direct base class of each class, exactly as written in the source
(`class X(Y)`); `Exception` is the builtin root and has no parent here. -/
def PyClass.parent : PyClass → Option PyClass
  | .Exception => none
  | .SQLMeshError => some .Exception
  | .ConfigError => some .SQLMeshError
  | .MissingDependencyError => some .SQLMeshError
  | .MacroEvalError => some .SQLMeshError
  | .PlanError => some .SQLMeshError
  | .NoChangesPlanError => some .PlanError
  | .UncategorizedPlanError => some .PlanError
  | .ConflictingPlanError => some .PlanError
  | .MissingContextException => some .Exception
  | .SnapshotVersionError => some .SQLMeshError
  | .MagicError => some .SQLMeshError
  | .AuditConfigError => some .ConfigError
  | .AuditError => some .SQLMeshError
  | .TestError => some .SQLMeshError
  | .NotificationTargetError => some .SQLMeshError
  | .ApiError => some .SQLMeshError
  | .ApiClientError => some .ApiError
  | .ApiServerError => some .ApiError
  | .NotFoundError => some .ApiClientError
  | .CICDBotError => some .SQLMeshError
  | .ParsetimeAdapterCallError => some .SQLMeshError
  | .EngineAdapterError => some .SQLMeshError
  | .UnsupportedCatalogOperationError => some .EngineAdapterError
  | .CircuitBreakerError => some .SQLMeshError
  | .PythonModelEvalError => some .SQLMeshError

/-- The chain of a class and its ancestors, fuelled (every chain in this
hierarchy has length at most 5, so fuel 30 is ample). -/
def PyClass.chain : Nat → PyClass → List PyClass
  | 0, c => [c]
  | n + 1, c =>
    c :: (match c.parent with
          | some p => PyClass.chain n p
          | none => [])

/-- `c` is `d` or derives (transitively) from `d`: a handler written for `d`
catches instances of `c`. -/
def PyClass.isSubclassOf (c d : PyClass) : Bool :=
  d ∈ PyClass.chain 30 c

/-- Every class declared in `errors.py` (the builtin `Exception` excluded). -/
def allErrorClasses : List PyClass :=
  [.SQLMeshError, .ConfigError, .MissingDependencyError, .MacroEvalError,
   .PlanError, .NoChangesPlanError, .UncategorizedPlanError,
   .ConflictingPlanError, .MissingContextException, .SnapshotVersionError,
   .MagicError, .AuditConfigError, .AuditError, .TestError,
   .NotificationTargetError, .ApiError, .ApiClientError, .ApiServerError,
   .NotFoundError, .CICDBotError, .ParsetimeAdapterCallError,
   .EngineAdapterError, .UnsupportedCatalogOperationError,
   .CircuitBreakerError, .PythonModelEvalError]

/-- The kinds listed in the spec's domain table (every leaf and group except
the non-domain `MissingContextException`). -/
def domainTableKinds : List PyClass :=
  [.ConfigError, .AuditConfigError,
   .PlanError, .NoChangesPlanError, .UncategorizedPlanError, .ConflictingPlanError,
   .AuditError,
   .ApiError, .ApiClientError, .ApiServerError, .NotFoundError,
   .EngineAdapterError, .UnsupportedCatalogOperationError,
   .MissingDependencyError, .MacroEvalError, .SnapshotVersionError,
   .MagicError, .TestError, .NotificationTargetError, .CICDBotError,
   .ParsetimeAdapterCallError, .CircuitBreakerError, .PythonModelEvalError]

/-- Modelled from the spec: an HTTP response as consumed by `raise_for_status`
(`requests.models.Response` is an external collaborator; the spec fixes its
interface to a numeric status code and a textual body). -/
structure Response where
  status_code : Int
  text : String
  deriving Repr, DecidableEq

/-- The payload `ApiError.__init__` stores: the message handed to
`Exception.__init__` and the status code kept on the instance. -/
structure ApiErrorFields where
  message : String
  code : Int
  deriving Repr, DecidableEq

/-- `ApiError.__init__(self, message, code)`. -/
def ApiError.init (message : String) (code : Int) : ApiErrorFields :=
  ⟨message, code⟩

/-- `NotFoundError.__init__(self, message)`: delegates to
`ApiError.__init__` with the code fixed at 404. -/
def NotFoundError.init (message : String) : ApiErrorFields :=
  ApiError.init message 404

/-- An exception raised by `raise_for_status`, tagged with its class. -/
inductive ApiRaise
  | notFoundError (fields : ApiErrorFields)
  | apiClientError (fields : ApiErrorFields)
  | apiServerError (fields : ApiErrorFields)
  deriving Repr, DecidableEq

/-- `raise_for_status(response)`: `none` models a normal return, `some e`
models raising `e`. -/
def raise_for_status (response : Response) : Option ApiRaise :=
  if response.status_code = 404 then
    some (.notFoundError (NotFoundError.init response.text))
  else if 400 ≤ response.status_code ∧ response.status_code < 500 then
    some (.apiClientError (ApiError.init response.text response.status_code))
  else if 500 ≤ response.status_code ∧ response.status_code < 600 then
    some (.apiServerError (ApiError.init response.text response.status_code))
  else
    none

/-- The `Config`-family classes accepted by `raise_config_error`'s
`error_type: t.Type[ConfigError]` parameter. -/
inductive ConfigErrorType
  | configError
  | auditConfigError
  deriving Repr, DecidableEq

/-- The exception built and raised by `raise_config_error`. -/
structure ConfigRaise where
  error_type : ConfigErrorType
  message : String
  deriving Repr, DecidableEq

/-- Python truthiness of an optional string: `None` and `""` are falsy. -/
def strTruthy : Option String → Bool
  | none => false
  | some s => s ≠ ""

/-- `raise_config_error(msg, location, error_type)`: the function always
raises, so its embedding returns the raised exception.  `if location:` is the
Python truthiness test on the optional location. -/
def raise_config_error (msg : String) (location : Option String)
    (error_type : ConfigErrorType) : ConfigRaise :=
  if strTruthy location then
    ⟨error_type, msg ++ " at " ++ "'" ++ (location.getD "") ++ "'"⟩
  else
    ⟨error_type, msg⟩

/-- `raise_config_error` with its default `error_type=ConfigError`. -/
def raise_config_error_default (msg : String) (location : Option String) :
    ConfigRaise :=
  raise_config_error msg location ConfigErrorType.configError

/-- Modelled from the spec: the `Model` collaborator (defined in
`sqlmesh.core.model`, outside this module) is opaque here except for its
`name` accessor, a string. -/
structure Model where
  name : String

/-- Modelled from the spec: the abstract SQL query collaborator
(`sqlglot.exp.Query`) is used only via its rendering capability `sql`,
parameterized by an optional dialect string (`none` models `dialect=None`,
the query's default rendering). -/
structure Query where
  sql : Option String → String

/-- The fields `AuditError.__init__` stores on the instance. -/
structure AuditError where
  audit_name : String
  count : Int
  query : Query
  model : Option Model
  adapter_dialect : Option String

/-- Python `a or b` on optional strings: `a` when truthy (present and
non-empty), else `b`. -/
def pyOrStr (a b : Option String) : Option String :=
  if strTruthy a then a else b

/-- `AuditError.sql(self, dialect=None)`:
`self.query.sql(dialect=dialect or self.adapter_dialect)`. -/
def AuditError.sql (e : AuditError) (dialect : Option String) : String :=
  e.query.sql (pyOrStr dialect e.adapter_dialect)

/-- `AuditError.model_name`: `self.model.name if self.model else None`
(a model object is truthy whenever present). -/
def AuditError.model_name (e : AuditError) : Option String :=
  match e.model with
  | some m => some m.name
  | none => none

/-- `AuditError.__str__`: the clause `" for model '<name>'"` is inserted only
when `self.model_name` is truthy (present and non-empty); `self.sql()` is the
rendering with the default `dialect=None`. -/
def AuditError.toStr (e : AuditError) : String :=
  let model_str :=
    if strTruthy e.model_name then
      " for model " ++ "'" ++ ((e.model_name).getD "") ++ "'"
    else ""
  "Audit " ++ "'" ++ e.audit_name ++ "'" ++ model_str ++ " failed.\nGot " ++
    toString e.count ++ " results, expected 0.\n" ++ e.sql none

/-- Shallow embedding of a call `CircuitBreakerError(*args)` with a list of
positional arguments.  The source constructor is `def __init__(self) -> None`,
taking no parameter beyond `self`, so Python rejects any supplied argument
with a `TypeError` before the body runs; with no argument the body hands the
constant message to `Exception.__init__`.  `.ok` carries the message of the
constructed instance, `.error` a raised `TypeError`. -/
def CircuitBreakerError.construct (args : List String) :
    Except String String :=
  match args with
  | [] => Except.ok "Circuit breaker triggered."
  | _ => Except.error "TypeError: CircuitBreakerError.__init__ takes 1 positional argument"

/-- C1: `raise_for_status` raises exactly one API-error kind or nothing,
partitioned by status code: 404 raises `NotFoundError` with the body as
message; other codes in [400,499] raise `ApiClientError` with the body and
that exact code; codes in [500,599] raise `ApiServerError` with the body and
that code; every other status returns normally without raising. -/
theorem raise_for_status_partitions (status : Int) (body : String) :
    (status = 404 →
      raise_for_status ⟨status, body⟩ =
        some (.notFoundError ⟨body, 404⟩))
    ∧ (400 ≤ status → status < 500 → status ≠ 404 →
      raise_for_status ⟨status, body⟩ =
        some (.apiClientError ⟨body, status⟩))
    ∧ (500 ≤ status → status < 600 →
      raise_for_status ⟨status, body⟩ =
        some (.apiServerError ⟨body, status⟩))
    ∧ (¬ (400 ≤ status ∧ status ≤ 599) →
      raise_for_status ⟨status, body⟩ = none) := by
  refine ⟨fun h => ?_, fun h1 h2 h3 => ?_, fun h1 h2 => ?_, fun h => ?_⟩ <;>
    simp only [raise_for_status, NotFoundError.init, ApiError.init]
  · rw [if_pos h]
  · rw [if_neg h3, if_pos ⟨h1, h2⟩]
  · rw [if_neg (by omega), if_neg (by omega), if_pos ⟨h1, h2⟩]
  · rw [if_neg (by omega), if_neg (by omega), if_neg (by omega)]

/-- Witness for C1: each branch evaluated at a concrete status and body. -/
theorem raise_for_status_partitions_witness :
    raise_for_status ⟨404, "missing"⟩ =
      some (.notFoundError ⟨"missing", 404⟩)
    ∧ raise_for_status ⟨418, "teapot"⟩ =
      some (.apiClientError ⟨"teapot", 418⟩)
    ∧ raise_for_status ⟨503, "down"⟩ =
      some (.apiServerError ⟨"down", 503⟩)
    ∧ raise_for_status ⟨200, "ok"⟩ = none :=
  ⟨(raise_for_status_partitions 404 "missing").1 rfl,
   (raise_for_status_partitions 418 "teapot").2.1 (by decide) (by decide)
     (by decide),
   (raise_for_status_partitions 503 "down").2.2.1 (by decide) (by decide),
   (raise_for_status_partitions 200 "ok").2.2.2 (by decide)⟩

/-- C2: `raise_config_error` always raises an instance of the requested
Config-family kind (defaulting to `ConfigError`); the raised message is
exactly the message followed by the quoted location when the location is
present and non-empty, and the message verbatim when the location is `None`
or empty. -/
theorem raise_config_error_message (msg : String) (location : Option String)
    (error_type : ConfigErrorType) :
    (raise_config_error msg location error_type).error_type = error_type
    ∧ (location = none ∨ location = some "" →
      (raise_config_error msg location error_type).message = msg)
    ∧ (∀ loc, location = some loc → loc ≠ "" →
      (raise_config_error msg location error_type).message =
        msg ++ " at " ++ "'" ++ loc ++ "'")
    ∧ raise_config_error_default msg location =
      raise_config_error msg location ConfigErrorType.configError := by
  refine ⟨?_, fun h => ?_, fun loc hl hne => ?_, rfl⟩
  · cases location with
    | none => rfl
    | some s =>
      simp only [raise_config_error, strTruthy]
      split <;> rfl
  · rcases h with h | h <;> subst h <;> rfl
  · subst hl
    simp only [raise_config_error, strTruthy, Option.getD]
    rw [if_pos (by simpa using hne)]

/-- Witness for C2: evaluation with a location present, empty and absent. -/
theorem raise_config_error_message_witness :
    (raise_config_error "bad key" (some "cfg.yaml")
      ConfigErrorType.auditConfigError).error_type =
        ConfigErrorType.auditConfigError
    ∧ (raise_config_error "bad key" none ConfigErrorType.configError).message =
        "bad key"
    ∧ (raise_config_error "bad key" (some "") ConfigErrorType.configError).message =
        "bad key"
    ∧ (raise_config_error "bad key" (some "cfg.yaml")
        ConfigErrorType.configError).message =
        "bad key" ++ " at " ++ "'" ++ "cfg.yaml" ++ "'" :=
  ⟨(raise_config_error_message "bad key" (some "cfg.yaml")
      ConfigErrorType.auditConfigError).1,
   (raise_config_error_message "bad key" none
      ConfigErrorType.configError).2.1 (Or.inl rfl),
   (raise_config_error_message "bad key" (some "")
      ConfigErrorType.configError).2.1 (Or.inr rfl),
   (raise_config_error_message "bad key" (some "cfg.yaml")
      ConfigErrorType.configError).2.2.1 "cfg.yaml" rfl (by decide)⟩

/-- C5: every `NotFoundError` has status code exactly 404: its constructor
takes only a message (the signature admits no other argument), and the code
it stores is 404 whatever the message. -/
theorem notFoundError_code_always_404 (message : String) :
    (NotFoundError.init message).code = 404 := rfl

/-- C8: `raise_for_status` is pure and stateless: two responses agreeing on
status code and body text produce identical outcomes; no other input or
retained state influences the decision. -/
theorem raise_for_status_pure (r1 r2 : Response)
    (hcode : r1.status_code = r2.status_code) (htext : r1.text = r2.text) :
    raise_for_status r1 = raise_for_status r2 := by
  cases r1
  cases r2
  cases hcode
  cases htext
  rfl

/-- Witness for C8: two structurally equal responses classify identically. -/
theorem raise_for_status_pure_witness :
    raise_for_status ⟨404, "gone"⟩ = raise_for_status ⟨404, "gone"⟩ :=
  raise_for_status_pure ⟨404, "gone"⟩ ⟨404, "gone"⟩ rfl rfl

/-- C7: every kind in the spec's domain table derives from the single domain
root `SQLMeshError`; a handler for the root, the Config family, the planning
group or the API group catches exactly that group's members; and
`MissingContextException` is outside the domain root, so a handler matching
any domain failure never catches it. -/
theorem taxonomy_membership :
    (domainTableKinds.all fun k => k.isSubclassOf .SQLMeshError) = true
    ∧ PyClass.isSubclassOf .MissingContextException .SQLMeshError = false
    ∧ (allErrorClasses.all fun k =>
        k.isSubclassOf .SQLMeshError == !(k == .MissingContextException)) = true
    ∧ (allErrorClasses.all fun k =>
        k.isSubclassOf .ConfigError ==
          (k == .ConfigError || k == .AuditConfigError)) = true
    ∧ (allErrorClasses.all fun k =>
        k.isSubclassOf .PlanError ==
          (k == .PlanError || k == .NoChangesPlanError ||
           k == .UncategorizedPlanError || k == .ConflictingPlanError)) = true
    ∧ (allErrorClasses.all fun k =>
        k.isSubclassOf .ApiError ==
          (k == .ApiError || k == .ApiClientError || k == .ApiServerError ||
           k == .NotFoundError)) = true := by
  decide

/-- An `AuditError` whose attached model has an empty name, for C3. -/
def auditErrorEmptyModelName : AuditError :=
  ⟨"a1", 3, ⟨fun _ => "SELECT 1"⟩, some ⟨""⟩, none⟩

/-- Counterexample for C3: a model is attached (`model.isSome`), yet the
message omits the `for model` clause — it is not the claimed
`Audit 'a1' for model '' failed...` string. -/
theorem auditError_message_model_attached_ce :
    auditErrorEmptyModelName.model.isSome = true
    ∧ AuditError.toStr auditErrorEmptyModelName =
      "Audit 'a1' failed.\nGot 3 results, expected 0.\nSELECT 1"
    ∧ AuditError.toStr auditErrorEmptyModelName ≠
      "Audit 'a1' for model '' failed.\nGot 3 results, expected 0.\nSELECT 1" := by
  refine ⟨rfl, by decide, by decide⟩

/-- C3 (amended): the message is exactly
`Audit '<name>' for model '<model>' failed.\nGot <count> results, expected
0.\n<rendered-sql>` when a model with a non-empty name is attached, and the
`for model` clause is omitted entirely when no model is attached or the
attached model's name is empty. -/
theorem auditError_message_format (e : AuditError) :
    (∀ m, e.model = some m → m.name ≠ "" →
      e.toStr =
        "Audit " ++ "'" ++ e.audit_name ++ "'" ++ " for model " ++ "'" ++
          m.name ++ "'" ++ " failed.\nGot " ++ toString e.count ++
          " results, expected 0.\n" ++ e.sql none)
    ∧ (e.model = none ∨ (∃ m, e.model = some m ∧ m.name = "") →
      e.toStr =
        "Audit " ++ "'" ++ e.audit_name ++ "'" ++ " failed.\nGot " ++
          toString e.count ++ " results, expected 0.\n" ++ e.sql none) := by
  constructor
  · intro m hm hne
    simp only [AuditError.toStr, AuditError.model_name, hm, strTruthy,
      Option.getD]
    rw [if_pos (by simpa using hne)]
    simp only [← String.append_assoc]
  · intro h
    rcases h with h | ⟨m, hm, hname⟩
    · simp only [AuditError.toStr, AuditError.model_name, h, strTruthy,
        Bool.false_eq_true, if_false, String.append_empty]
    · simp [AuditError.toStr, AuditError.model_name, hm, hname, strTruthy,
        String.append_empty]

/-- Witness for C3: both branches evaluated on concrete audit errors. -/
theorem auditError_message_format_witness :
    AuditError.toStr ⟨"a1", 3, ⟨fun _ => "SELECT 1"⟩, some ⟨"orders"⟩, none⟩ =
      "Audit 'a1' for model 'orders' failed.\nGot 3 results, expected 0.\nSELECT 1"
    ∧ AuditError.toStr ⟨"a1", 3, ⟨fun _ => "SELECT 1"⟩, none, none⟩ =
      "Audit 'a1' failed.\nGot 3 results, expected 0.\nSELECT 1" := by
  constructor
  · have h :=
      (auditError_message_format
        ⟨"a1", 3, ⟨fun _ => "SELECT 1"⟩, some ⟨"orders"⟩, none⟩).1
        ⟨"orders"⟩ rfl (by decide)
    exact h.trans (by decide)
  · have h :=
      (auditError_message_format
        ⟨"a1", 3, ⟨fun _ => "SELECT 1"⟩, none, none⟩).2 (Or.inl rfl)
    exact h.trans (by decide)

/-- An `AuditError` whose query renders differently under the duckdb dialect,
with `duckdb` as the stored adapter dialect, for C4. -/
def auditErrorDialectTiers : AuditError :=
  ⟨"a1", 3,
   ⟨fun d => match d with
             | some "duckdb" => "SELECT 1 FROM t"
             | _ => "SELECT 1"⟩,
   none, some "duckdb"⟩

/-- Counterexample for C4: the caller supplies the dialect argument `""`, yet
the rendering does not use it — it falls back to the stored adapter dialect
`duckdb`, whose rendering differs. -/
theorem auditError_sql_dialect_tiers_ce :
    AuditError.sql auditErrorDialectTiers (some "") = "SELECT 1 FROM t"
    ∧ auditErrorDialectTiers.query.sql (some "") = "SELECT 1" := by
  refine ⟨by decide, by decide⟩

/-- C4 (amended): the rendering selects the dialect in three tiers — a
caller-supplied non-empty dialect is used; otherwise (argument absent or
empty, both falsy in the source's `or`) the adapter dialect stored at
construction is passed to the query's rendering; when that too is absent the
query's default rendering is used. -/
theorem auditError_sql_dialect_tiers (e : AuditError) :
    (∀ d, d ≠ "" → e.sql (some d) = e.query.sql (some d))
    ∧ e.sql none = e.query.sql e.adapter_dialect
    ∧ e.sql (some "") = e.query.sql e.adapter_dialect
    ∧ (e.adapter_dialect = none → e.sql none = e.query.sql none) := by
  refine ⟨fun d hd => ?_, rfl, ?_, fun h => ?_⟩
  · simp only [AuditError.sql, pyOrStr, strTruthy]
    rw [if_pos (by simpa using hd)]
  · simp [AuditError.sql, pyOrStr, strTruthy]
  · simp [AuditError.sql, pyOrStr, strTruthy, h]

/-- Witness for C4: all three tiers evaluated on a concrete audit error whose
query renders differently by dialect. -/
theorem auditError_sql_dialect_tiers_witness :
    AuditError.sql auditErrorDialectTiers (some "duckdb") = "SELECT 1 FROM t"
    ∧ AuditError.sql auditErrorDialectTiers none = "SELECT 1 FROM t"
    ∧ AuditError.sql ⟨"a1", 3, ⟨fun d => match d with
        | some "duckdb" => "SELECT 1 FROM t"
        | _ => "SELECT 1"⟩, none, none⟩ none = "SELECT 1" := by
  refine ⟨?_, ?_, ?_⟩
  · have h := (auditError_sql_dialect_tiers auditErrorDialectTiers).1
      "duckdb" (by decide)
    exact h.trans (by decide)
  · have h := (auditError_sql_dialect_tiers auditErrorDialectTiers).2.1
    exact h.trans (by decide)
  · have h := (auditError_sql_dialect_tiers
      ⟨"a1", 3, ⟨fun d => match d with
        | some "duckdb" => "SELECT 1 FROM t"
        | _ => "SELECT 1"⟩, none, none⟩).2.2.2 rfl
    exact h.trans (by decide)

/-- Counterexample for C6: passing caller-supplied text to the constructor
does cause construction to fail (a `TypeError`, since `__init__` accepts no
argument beyond `self`), rather than being ignored. -/
theorem circuitBreaker_arg_construction_fails :
    CircuitBreakerError.construct ["custom message"] =
      Except.error
        "TypeError: CircuitBreakerError.__init__ takes 1 positional argument"
    ∧ CircuitBreakerError.construct ["custom message"] ≠
      Except.ok "Circuit breaker triggered." := by
  refine ⟨rfl, fun h => Except.noConfusion h⟩

/-- C6 (amended): `CircuitBreakerError`'s constructor accepts no message
argument; constructed without arguments its message is always exactly
`Circuit breaker triggered.`, every successful construction carries that
message, and caller-supplied text is never incorporated — passing any
argument fails construction with a `TypeError`. -/
theorem circuitBreaker_message_constant (args : List String) :
    (args = [] →
      CircuitBreakerError.construct args =
        Except.ok "Circuit breaker triggered.")
    ∧ (∀ m, CircuitBreakerError.construct args = Except.ok m →
        m = "Circuit breaker triggered.")
    ∧ (args ≠ [] →
        ∃ err, CircuitBreakerError.construct args = Except.error err) := by
  refine ⟨fun h => ?_, fun m hm => ?_, fun h => ?_⟩
  · subst h; rfl
  · cases args with
    | nil => simpa [CircuitBreakerError.construct] using hm.symm
    | cons a rest => simp [CircuitBreakerError.construct] at hm
  · cases args with
    | nil => exact absurd rfl h
    | cons a rest => exact ⟨_, rfl⟩

/-- Witness for C6: concrete evaluation with no argument and one argument. -/
theorem circuitBreaker_message_constant_witness :
    CircuitBreakerError.construct [] = Except.ok "Circuit breaker triggered."
    ∧ ∃ err, CircuitBreakerError.construct ["boom"] = Except.error err :=
  ⟨(circuitBreaker_message_constant []).1 rfl,
   (circuitBreaker_message_constant ["boom"]).2.2 (by decide)⟩

/-- C9: an attached model with an empty (falsy) name makes the message omit
the `for model` clause exactly as if no model were attached; the clause
appears precisely when a model is present with a non-empty name. -/
theorem auditError_empty_model_name (e : AuditError) :
    (∀ m, e.model = some m → m.name = "" →
      e.toStr =
        AuditError.toStr ⟨e.audit_name, e.count, e.query, none,
          e.adapter_dialect⟩)
    ∧ (∀ m, e.model = some m → m.name ≠ "" →
      e.toStr =
        "Audit " ++ "'" ++ e.audit_name ++ "'" ++ " for model " ++ "'" ++
          m.name ++ "'" ++ " failed.\nGot " ++ toString e.count ++
          " results, expected 0.\n" ++ e.sql none)
    ∧ (e.model = none →
      e.toStr =
        "Audit " ++ "'" ++ e.audit_name ++ "'" ++ " failed.\nGot " ++
          toString e.count ++ " results, expected 0.\n" ++ e.sql none) := by
  refine ⟨fun m hm hname => ?_, fun m hm hname => ?_, fun h => ?_⟩
  · simp [AuditError.toStr, AuditError.model_name, AuditError.sql, hm, hname,
      strTruthy]
  · simp only [AuditError.toStr, AuditError.model_name, hm, strTruthy,
      Option.getD]
    rw [if_pos (by simpa using hname)]
    simp only [← String.append_assoc]
  · simp only [AuditError.toStr, AuditError.model_name, h, strTruthy,
      Bool.false_eq_true, if_false, String.append_empty]

/-- Witness for C9: a model named `""` yields the same message as no model. -/
theorem auditError_empty_model_name_witness :
    AuditError.toStr ⟨"a1", 3, ⟨fun _ => "SELECT 1"⟩, some ⟨""⟩, none⟩ =
      AuditError.toStr ⟨"a1", 3, ⟨fun _ => "SELECT 1"⟩, none, none⟩ :=
  (auditError_empty_model_name
    ⟨"a1", 3, ⟨fun _ => "SELECT 1"⟩, some ⟨""⟩, none⟩).1 ⟨""⟩ rfl rfl

/-- C10: rendering with an explicit empty-string dialect behaves as if no
dialect were supplied: it falls back to the stored adapter dialect, or to the
query's default rendering when that too is absent. -/
theorem auditError_sql_empty_dialect (e : AuditError) :
    e.sql (some "") = e.sql none
    ∧ e.sql (some "") = e.query.sql e.adapter_dialect
    ∧ (e.adapter_dialect = none → e.sql (some "") = e.query.sql none) := by
  refine ⟨rfl, rfl, fun h => ?_⟩
  simp [AuditError.sql, pyOrStr, strTruthy, h]

/-- Witness for C10: concrete renderings under the empty dialect. -/
theorem auditError_sql_empty_dialect_witness :
    AuditError.sql auditErrorDialectTiers (some "") =
      AuditError.sql auditErrorDialectTiers none
    ∧ AuditError.sql ⟨"a1", 3, ⟨fun d => match d with
        | some "duckdb" => "SELECT 1 FROM t"
        | _ => "SELECT 1"⟩, none, none⟩ (some "") = "SELECT 1" := by
  constructor
  · exact (auditError_sql_empty_dialect auditErrorDialectTiers).1
  · have h := (auditError_sql_empty_dialect
      ⟨"a1", 3, ⟨fun d => match d with
        | some "duckdb" => "SELECT 1 FROM t"
        | _ => "SELECT 1"⟩, none, none⟩).2.2 rfl
    exact h.trans (by decide)
